import Mathlib

/-!
Verification of the hornbill TrueLayer token/account core.

Shallow embedding of `src/hornbill/utils/database.py`,
`src/hornbill/utils/truelayer.py` and `src/hornbill/api.py`.

The SQLite tables are modelled as Lean lists of row structures in
insertion (rowid) order; `fetchone` after a SELECT with a WHERE clause is
`List.find?` with the clause as predicate.  Nullable columns are `Option`,
NOT NULL columns are plain.  Python exceptions raised by the modelled code
paths become explicit error values.  HTTP calls are modelled by passing the
upstream response in as data; epoch time is an explicit `Int` argument.
-/

namespace Hornbill

/-- TokenData pydantic model (database.py lines 12-18). -/
structure TokenData where
  access_token : String
  refresh_token : String
  token_type : String
  scope : String
  expires_at : Int
  deriving DecidableEq, Repr

/-- Value of the accounts.type column: CHECK(type IN ('credit', 'debit')). -/
inductive AcctType where
  | credit
  | debit
  deriving DecidableEq, Repr

/-- One row of the accounts table (database.py lines 72-85).  `institution`,
`truelayer_account_id` and `actual_account_id` are nullable columns. -/
structure AccountRow where
  name : String
  type : AcctType
  institution : Option String
  truelayer_account_id : Option String
  actual_account_id : Option String
  deriving DecidableEq, Repr

/-- One row of the tokens table (database.py lines 57-71); every column is
NOT NULL and the primary key is (provider, institution). -/
structure TokenRow where
  provider : String
  institution : String
  access_token : String
  refresh_token : String
  token_type : String
  scope : String
  expires_at : Int
  updated_at : Int
  deriving DecidableEq, Repr

/-- Errors surfaced by the database layer.  NotFound models the RuntimeError
raised by get_account_id and is_credit_card when fetchone returns no row. -/
inductive DbError where
  | NotFound (account_name : String) (institution : Option String)
  deriving DecidableEq, Repr

/-- Shared WHERE clause of the account queries:
`WHERE name = ? AND institution = ?`.  SQL equality against a non-NULL bound
institution never matches a NULL column, hence the comparison with `some`. -/
def accountMatches (name : String) (inst : String) (r : AccountRow) : Bool :=
  r.name == name && r.institution == some inst

/-- fetchone of the SELECT used by get_account_id / is_credit_card /
get_actual_account_id: first row of the table matching the WHERE clause. -/
def findAccount (rows : List AccountRow) (name inst : String) :
    Option AccountRow :=
  rows.find? (accountMatches name inst)

/-- Database.get_account_id (database.py lines 146-160): raises when no row
matches, otherwise returns the truelayer_account_id column, which is nullable,
so the success value is an Option despite the declared `-> str`. -/
def get_account_id (rows : List AccountRow) (name inst : String) :
    Except DbError (Option String) :=
  match findAccount rows name inst with
  | none => .error (.NotFound name (some inst))
  | some r => .ok r.truelayer_account_id

/-- Database.is_credit_card (database.py lines 162-176): raises when no row
matches, otherwise compares the type column with 'credit'. -/
def is_credit_card (rows : List AccountRow) (name inst : String) :
    Except DbError Bool :=
  match findAccount rows name inst with
  | none => .error (.NotFound name (some inst))
  | some r => .ok (r.type == AcctType.credit)

/-- Database.get_actual_account_id (database.py lines 178-190): returns None
when no row matches, otherwise the nullable actual_account_id column. -/
def get_actual_account_id (rows : List AccountRow) (name inst : String) :
    Option String :=
  match findAccount rows name inst with
  | none => none
  | some r => r.actual_account_id

/-- Database.get_actual_accounts (database.py lines 192-201):
`SELECT name, institution FROM accounts WHERE actual_account_id IS NOT NULL`
over all rows; institution is nullable so the second component is Option. -/
def get_actual_accounts (rows : List AccountRow) :
    List (String × Option String) :=
  (rows.filter (fun r => r.actual_account_id.isSome)).map
    (fun r => (r.name, r.institution))

/-- Conflict target of save_token's upsert: ON CONFLICT(provider, institution),
with provider always bound to the literal 'truelayer'. -/
def tokenKeyMatches (inst : String) (r : TokenRow) : Bool :=
  r.provider == "truelayer" && r.institution == inst

/-- DO UPDATE SET branch of save_token's upsert: replace every non-key field
of a conflicting row with the excluded values, leave other rows alone. -/
def updateTokenRow (inst : String) (td : TokenData) (now : Int)
    (r : TokenRow) : TokenRow :=
  if tokenKeyMatches inst r then
    { r with
      access_token := td.access_token
      refresh_token := td.refresh_token
      token_type := td.token_type
      scope := td.scope
      expires_at := td.expires_at
      updated_at := now }
  else r

/-- Row inserted by save_token when no (provider, institution) conflict
exists; provider is the literal 'truelayer'. -/
def freshTokenRow (inst : String) (td : TokenData) (now : Int) : TokenRow :=
  { provider := "truelayer", institution := inst,
    access_token := td.access_token, refresh_token := td.refresh_token,
    token_type := td.token_type, scope := td.scope,
    expires_at := td.expires_at, updated_at := now }

/-- Database.save_token (database.py lines 115-144): INSERT OR, on a
(provider, institution) conflict, UPDATE every field of the conflicting row
in place; a fresh row is appended at the end of the table otherwise. -/
def save_token (store : List TokenRow) (inst : String) (td : TokenData)
    (now : Int) : List TokenRow :=
  if store.any (tokenKeyMatches inst) then
    store.map (updateTokenRow inst td now)
  else
    store ++ [freshTokenRow inst td now]

/-- Database.get_token (database.py lines 95-113): fetchone of
`SELECT ... FROM tokens WHERE institution = ?` (the WHERE clause filters on
institution only), rebuilt into a TokenData. -/
def db_get_token (store : List TokenRow) (inst : String) : Option TokenData :=
  (store.find? (fun r => r.institution == inst)).map
    (fun r => { access_token := r.access_token,
                refresh_token := r.refresh_token,
                token_type := r.token_type, scope := r.scope,
                expires_at := r.expires_at })

/-- TrueLayer.TOKEN_SKEW_SECONDS (truelayer.py line 27). -/
def TOKEN_SKEW_SECONDS : Int := 60

/-- JSON body and status of a response from the upstream token endpoint.
The fields read unconditionally by the client are plain; `scope` is Option
because some grants omit it on refresh (the exchange path reads it and would
raise a KeyError on omission, which the embedding surfaces as an error). -/
structure OAuthResponse where
  status_code : Nat
  access_token : String
  refresh_token : String
  token_type : String
  scope : Option String
  expires_in : Int
  deriving DecidableEq, Repr

/-- Errors raised by the TrueLayer client.  The names follow the error
taxonomy of the specification; each constructor corresponds to one distinct
raise site in truelayer.py. -/
inductive TLError where
  | CredentialsUnavailable
  | TokenExchangeFailed (status : Nat)
  | TokenRefreshFailed (status : Nat)
  | MissingScopeInExchange
  | NoStoredTokenForScope
  deriving DecidableEq, Repr

/-- Observable effects of _ensure_tokens_ready: upstream POSTs and writes to
the token store, in program order. -/
inductive TLEvent where
  | exchangeCall (code : String)
  | refreshCall (refresh_token : String)
  | storeWrite (td : TokenData)
  deriving DecidableEq, Repr

/-- TrueLayer._exchange_code_for_tokens (truelayer.py lines 63-86): non-200
status raises; otherwise every field of the TokenData comes from the response
body, with expires_at computed as now + expires_in, and a missing scope key
raises. -/
def exchange_code_for_tokens (now : Int) (resp : OAuthResponse) :
    Except TLError TokenData :=
  if resp.status_code ≠ 200 then
    .error (.TokenExchangeFailed resp.status_code)
  else
    match resp.scope with
    | none => .error .MissingScopeInExchange
    | some sc =>
      .ok { access_token := resp.access_token,
            refresh_token := resp.refresh_token,
            token_type := resp.token_type, scope := sc,
            expires_at := now + resp.expires_in }

/-- TrueLayer._refresh_tokens (truelayer.py lines 88-110): non-200 status
raises; otherwise access_token, refresh_token, token_type and expires_in come
from the response body, while scope is read back from the stored record via
self.db.get_token().scope — the scope of the response body is never read.
`dbToken` is the current get_token() result; None there models the
AttributeError Python would raise dereferencing .scope on None. -/
def refresh_tokens (dbToken : Option TokenData) (now : Int)
    (resp : OAuthResponse) : Except TLError TokenData :=
  if resp.status_code ≠ 200 then
    .error (.TokenRefreshFailed resp.status_code)
  else
    match dbToken with
    | none => .error .NoStoredTokenForScope
    | some prev =>
      .ok { access_token := resp.access_token,
            refresh_token := resp.refresh_token,
            token_type := resp.token_type, scope := prev.scope,
            expires_at := now + resp.expires_in }

/-- Result of running _ensure_tokens_ready: the exception raised if any, the
token row of this institution after the call, and the observable events. -/
structure EnsureOutcome where
  error : Option TLError
  store : Option TokenData
  events : List TLEvent
  deriving DecidableEq, Repr

/-- TrueLayer._ensure_tokens_ready (truelayer.py lines 45-61), run once from
the constructor.  `stored` is db.get_token() at entry, `code` is the
TRUE_LAYER_CODE configuration value, `now` is int(time.time()), and `resp`
is the upstream response to whichever POST the method issues (at most one). -/
def ensure_tokens_ready (stored : Option TokenData) (code : Option String)
    (now : Int) (resp : OAuthResponse) : EnsureOutcome :=
  match stored with
  | none =>
    match code with
    | none => { error := some .CredentialsUnavailable, store := none,
                events := [] }
    | some c =>
      match exchange_code_for_tokens now resp with
      | .error e => { error := some e, store := none,
                      events := [.exchangeCall c] }
      | .ok td => { error := none, store := some td,
                    events := [.exchangeCall c, .storeWrite td] }
  | some tokens =>
    if tokens.expires_at ≤ now + TOKEN_SKEW_SECONDS then
      match refresh_tokens (some tokens) now resp with
      | .error e => { error := some e, store := some tokens,
                      events := [.refreshCall tokens.refresh_token] }
      | .ok td => { error := none, store := some td,
                    events := [.refreshCall tokens.refresh_token,
                               .storeWrite td] }
    else
      { error := none, store := some tokens, events := [] }

/-- Token a data call such as _list_cards or _list_accounts attaches as its
bearer (truelayer.py lines 112-136): it is db.get_token() read at call time
`t`; the method compares nothing against `t` — it performs no expiry check —
so the result does not depend on `t`. -/
def data_call_token (store : Option TokenData) (t : Int) : Option TokenData :=
  let _ := t
  store

/-- Which upstream endpoint list_transactions fetches from. -/
inductive FetchPath where
  | cardEndpoint
  | accountEndpoint
  deriving DecidableEq, Repr

/-- TrueLayer.list_transactions (truelayer.py lines 181-192), reduced to its
routing decision: it queries db.is_credit_card(account_name) and branches to
_list_card_transactions on True and _list_account_transactions on False; the
NotFound error of the query propagates. -/
def list_transactions_route (rows : List AccountRow) (name inst : String) :
    Except DbError FetchPath :=
  match is_credit_card rows name inst with
  | .error e => .error e
  | .ok true => .ok .cardEndpoint
  | .ok false => .ok .accountEndpoint

/-- Per-account outcome recorded by one iteration of the import cycle. -/
inductive CycleEvent where
  | imported (name : String) (institution : Option String)
  | loggedFailure (name : String) (institution : Option String)
  deriving DecidableEq, Repr

/-- Body of the for loop of import_all_accounts (api.py lines 77-83): run
import_transactions(institution, name) inside try/except, logging on any
exception.  `doImport` abstracts import_transactions; an error value models
an exception escaping it. -/
def import_step (doImport : Option String → String → Except String Unit)
    (acct : String × Option String) : CycleEvent :=
  match doImport acct.2 acct.1 with
  | .ok _ => .imported acct.1 acct.2
  | .error _ => .loggedFailure acct.1 acct.2

/-- import_all_accounts (api.py lines 74-83): iterate the active accounts in
order, each iteration catching its own failure, so the loop always reaches
the end of the list. -/
def import_all_accounts
    (doImport : Option String → String → Except String Unit) :
    List (String × Option String) → List CycleEvent
  | [] => []
  | acct :: rest =>
    import_step doImport acct :: import_all_accounts doImport rest

/-- One save_token call against the shared store: the institution the
Database was constructed with, the TokenData argument, and int(time.time())
at the moment of the call. -/
structure SaveCall where
  inst : String
  td : TokenData
  time : Int
  deriving DecidableEq, Repr

/-- Run a sequence of save_token calls against a store, earliest call
first. -/
def run_saves (store : List TokenRow) : List SaveCall → List TokenRow
  | [] => store
  | c :: rest => run_saves (save_token store c.inst c.td c.time) rest

/-- TokenData of the most recent save for an institution in a call sequence
ordered earliest first, if any. -/
def lastSaveFor (inst : String) : List SaveCall → Option TokenData
  | [] => none
  | c :: rest =>
    match lastSaveFor inst rest with
    | some td => some td
    | none => if c.inst == inst then some c.td else none

/-- Internal invariant of stores built by save_token alone: every provider is
the literal 'truelayer' and institutions are pairwise distinct. -/
def goodStore (store : List TokenRow) : Prop :=
  (∀ r ∈ store, r.provider = "truelayer") ∧
  store.Pairwise (fun a b => a.institution ≠ b.institution)

/-- At most one row per (provider, institution) key — the tokens-table
invariant stated by the specification. -/
def atMostOnePerKey (store : List TokenRow) : Prop :=
  store.Pairwise
    (fun a b => (a.provider, a.institution) ≠ (b.provider, b.institution))

/-- Fixture rows of the two kinds named by the specification: a credit
(liability) card account and a debit (asset) checking account at the same
institution, both provisioned with external and downstream identifiers. -/
def fixtureRows : List AccountRow :=
  [{ name := "creditcard1", type := AcctType.credit,
     institution := some "barclays", truelayer_account_id := some "card-ext",
     actual_account_id := some "dn-1" },
   { name := "checking1", type := AcctType.debit,
     institution := some "barclays", truelayer_account_id := some "acct-ext",
     actual_account_id := some "dn-2" }]

/-- Three active accounts for the import-cycle scenario. -/
def cycleAccounts : List (String × Option String) :=
  [("a1", some "i1"), ("a2", some "i2"), ("a3", some "i3")]

/-- Fetch behaviour where only the second account raises. -/
def cycleFetch (inst : Option String) (name : String) : Except String Unit :=
  let _ := inst
  if name == "a2" then .error "fetch raised" else .ok ()

/-- Recognizer for logged per-account failures. -/
def isLoggedFailure : CycleEvent → Bool
  | .loggedFailure _ _ => true
  | _ => false

/-- Stored token that is not yet within SKEW of expiry at epoch second 100
but is within SKEW of expiry shortly afterwards. -/
def staleSoonToken : TokenData :=
  { access_token := "tok-old", refresh_token := "ref-old",
    token_type := "Bearer", scope := "accounts cards", expires_at := 161 }

/-- Healthy upstream token-endpoint response. -/
def okResp : OAuthResponse :=
  { status_code := 200, access_token := "tok-new",
    refresh_token := "ref-new", token_type := "Bearer",
    scope := some "accounts cards", expires_in := 3600 }

/-- Upstream refresh response that omits the scope field. -/
def noScopeResp : OAuthResponse :=
  { status_code := 200, access_token := "tok-new",
    refresh_token := "ref-new", token_type := "Bearer",
    scope := none, expires_in := 3600 }

/-- Upstream token-endpoint rejection. -/
def rejectResp : OAuthResponse :=
  { status_code := 400, access_token := "", refresh_token := "",
    token_type := "", scope := none, expires_in := 0 }

/-- Stored token far from expiry at epoch second 0. -/
def freshToken : TokenData :=
  { access_token := "tok-fresh", refresh_token := "ref-fresh",
    token_type := "Bearer", scope := "accounts", expires_at := 1000 }

/-- Stored token already within SKEW of expiry at epoch second 100. -/
def expiringToken : TokenData :=
  { access_token := "tok-exp", refresh_token := "ref-exp",
    token_type := "Bearer", scope := "accounts", expires_at := 120 }

/-- Account row whose external identifier column is NULL. -/
def pendingRow : AccountRow :=
  { name := "pending1", type := AcctType.debit,
    institution := some "barclays", truelayer_account_id := none,
    actual_account_id := some "dn-3" }

/-! Claim theorems. -/

/-- C4: with no stored token record and no one-time authorization code,
construction fails with CredentialsUnavailable and its event trace is empty:
no code exchange is attempted and nothing is written to the token store. -/
theorem bootstrap_without_code_fails (now : Int) (resp : OAuthResponse) :
    ensure_tokens_ready none none now resp =
      { error := some TLError.CredentialsUnavailable, store := none,
        events := [] } :=
  rfl

/-- C5: list_transactions fetches via the card-transactions endpoint exactly
when is_credit_card answers true for the (name, institution) pair and via the
account-transactions endpoint exactly when it answers false, this boolean
being the sole branch point; on the fixture rows, creditcard1 at barclays is
a credit card and routes to the card endpoint while checking1 routes to the
account endpoint. -/
theorem route_selected_by_liability :
    (∀ (rows : List AccountRow) (name inst : String),
      (list_transactions_route rows name inst = .ok .cardEndpoint ↔
         is_credit_card rows name inst = .ok true) ∧
      (list_transactions_route rows name inst = .ok .accountEndpoint ↔
         is_credit_card rows name inst = .ok false)) ∧
    is_credit_card fixtureRows "creditcard1" "barclays" = .ok true ∧
    list_transactions_route fixtureRows "creditcard1" "barclays" =
      .ok .cardEndpoint ∧
    is_credit_card fixtureRows "checking1" "barclays" = .ok false ∧
    list_transactions_route fixtureRows "checking1" "barclays" =
      .ok .accountEndpoint := by
  refine ⟨fun rows name inst => ?_, rfl, rfl, rfl, rfl⟩
  rcases h : is_credit_card rows name inst with e | b
  · simp [list_transactions_route, h]
  · cases b <;> simp [list_transactions_route, h]

/-- C6: the import cycle processes the active accounts elementwise — each
account contributes exactly one outcome, produced by its own guarded
iteration, so a failure in one account never suppresses the processing of the
accounts after it; in the three-account scenario where only the second fetch
raises, the third account is still imported and exactly one failure is
logged. -/
theorem import_cycle_isolates_failures :
    (∀ (doImport : Option String → String → Except String Unit)
       (accs : List (String × Option String)),
      import_all_accounts doImport accs = accs.map (import_step doImport)) ∧
    import_all_accounts cycleFetch cycleAccounts =
      [CycleEvent.imported "a1" (some "i1"),
       CycleEvent.loggedFailure "a2" (some "i2"),
       CycleEvent.imported "a3" (some "i3")] ∧
    (import_all_accounts cycleFetch cycleAccounts).countP isLoggedFailure
      = 1 := by
  refine ⟨fun doImport accs => ?_, by decide, by decide⟩
  induction accs with
  | nil => rfl
  | cons a t ih => simp [import_all_accounts, ih]

/-- C9: when no account row matches the (name, institution) pair,
get_account_id and is_credit_card fail with NotFound while
get_actual_account_id returns absent without failing; all three are reads of
the account table and return no modified table. -/
theorem missing_row_read_behaviour (rows : List AccountRow)
    (name inst : String) (h : findAccount rows name inst = none) :
    get_account_id rows name inst = .error (.NotFound name (some inst)) ∧
    is_credit_card rows name inst = .error (.NotFound name (some inst)) ∧
    get_actual_account_id rows name inst = none := by
  simp [get_account_id, is_credit_card, get_actual_account_id, h]

/-- C9 witness at the empty table. -/
theorem missing_row_read_behaviour_witness :
    findAccount [] "ghost" "barclays" = none ∧
    get_account_id [] "ghost" "barclays" =
      .error (.NotFound "ghost" (some "barclays")) :=
  ⟨by decide, (missing_row_read_behaviour [] "ghost" "barclays" (by decide)).1⟩

/-- C10: when a matching account row exists but its external identifier
column is NULL, get_account_id succeeds and returns the absent value — it
neither fails with NotFound nor produces a string, despite the declared
string return type. -/
theorem null_external_id_returned (rows : List AccountRow)
    (name inst : String) (r : AccountRow)
    (hf : findAccount rows name inst = some r)
    (hn : r.truelayer_account_id = none) :
    get_account_id rows name inst = .ok none := by
  simp [get_account_id, hf, hn]

/-- C10 witness on a single pending row. -/
theorem null_external_id_returned_witness :
    findAccount [pendingRow] "pending1" "barclays" = some pendingRow ∧
    pendingRow.truelayer_account_id = none ∧
    get_account_id [pendingRow] "pending1" "barclays" = .ok none :=
  ⟨by decide, by decide,
   null_external_id_returned [pendingRow] "pending1" "barclays" pendingRow
     (by decide) (by decide)⟩

/-- C7: get_actual_accounts returns exactly the (name, institution) pairs of
the rows whose actual_account_id is present — every returned pair comes from
such a row and every such row contributes its pair — and the result is
insertion-order independent: permuting the table permutes the result. -/
theorem active_accounts_exactly_nonabsent :
    (∀ (rows : List AccountRow) (p : String × Option String),
      p ∈ get_actual_accounts rows ↔
        ∃ r, r ∈ rows ∧ r.actual_account_id.isSome ∧
          p = (r.name, r.institution)) ∧
    ∀ (rows rows' : List AccountRow), rows.Perm rows' →
      (get_actual_accounts rows).Perm (get_actual_accounts rows') := by
  constructor
  · intro rows p
    simp only [get_actual_accounts, List.mem_map, List.mem_filter]
    constructor
    · rintro ⟨r, ⟨hr, hs⟩, rfl⟩
      exact ⟨r, hr, hs, rfl⟩
    · rintro ⟨r, hr, hs, rfl⟩
      exact ⟨r, ⟨hr, hs⟩, rfl⟩
  · intro rows rows' h
    exact (h.filter _).map _

/-- C7 witness: the fixture table and its reversal yield permuted results. -/
theorem active_accounts_exactly_nonabsent_witness :
    fixtureRows.Perm fixtureRows.reverse ∧
    (get_actual_accounts fixtureRows).Perm
      (get_actual_accounts fixtureRows.reverse) :=
  ⟨by decide,
   active_accounts_exactly_nonabsent.2 fixtureRows fixtureRows.reverse
     (by decide)⟩

/-- C2: when construction refreshes (stored token within SKEW of expiry) and
the upstream answers 200, the record persisted to the store carries the scope
of the previously stored record — the response scope field, present or
omitted, is never consulted — while every other field comes from the refresh
response, with expires_at computed as now + expires_in. -/
theorem refresh_carries_scope_forward (prev : TokenData)
    (code : Option String) (now : Int) (resp : OAuthResponse)
    (hexp : prev.expires_at ≤ now + TOKEN_SKEW_SECONDS)
    (hok : resp.status_code = 200) :
    (ensure_tokens_ready (some prev) code now resp).store =
      some { access_token := resp.access_token,
             refresh_token := resp.refresh_token,
             token_type := resp.token_type, scope := prev.scope,
             expires_at := now + resp.expires_in } ∧
    TLEvent.storeWrite
      { access_token := resp.access_token,
        refresh_token := resp.refresh_token,
        token_type := resp.token_type, scope := prev.scope,
        expires_at := now + resp.expires_in } ∈
      (ensure_tokens_ready (some prev) code now resp).events := by
  simp [ensure_tokens_ready, refresh_tokens, hexp, hok]

/-- C2 witness: a refresh response omitting scope still stores the old
scope. -/
theorem refresh_carries_scope_forward_witness :
    staleSoonToken.expires_at ≤ 101 + TOKEN_SKEW_SECONDS ∧
    noScopeResp.status_code = 200 ∧
    noScopeResp.scope = none ∧
    (ensure_tokens_ready (some staleSoonToken) none 101 noScopeResp).store =
      some { access_token := noScopeResp.access_token,
             refresh_token := noScopeResp.refresh_token,
             token_type := noScopeResp.token_type,
             scope := staleSoonToken.scope,
             expires_at := 101 + noScopeResp.expires_in } :=
  ⟨by decide, by decide, by decide,
   (refresh_carries_scope_forward staleSoonToken none 101 noScopeResp
     (by decide) (by decide)).1⟩

/-- C3: at construction with a stored token present, a refresh call is issued
exactly when expires_at is at most now + SKEW; and when the refresh response
is non-2xx the construction fails with TokenRefreshFailed, the store still
holds the previous record unchanged, and no store write occurs. -/
theorem construction_refresh_policy (prev : TokenData) (code : Option String)
    (now : Int) (resp : OAuthResponse) :
    ((∃ rt, TLEvent.refreshCall rt ∈
        (ensure_tokens_ready (some prev) code now resp).events) ↔
      prev.expires_at ≤ now + TOKEN_SKEW_SECONDS) ∧
    (prev.expires_at ≤ now + TOKEN_SKEW_SECONDS → resp.status_code ≠ 200 →
      (ensure_tokens_ready (some prev) code now resp).error =
        some (.TokenRefreshFailed resp.status_code) ∧
      (ensure_tokens_ready (some prev) code now resp).store = some prev ∧
      ∀ td, TLEvent.storeWrite td ∉
        (ensure_tokens_ready (some prev) code now resp).events) := by
  by_cases h : prev.expires_at ≤ now + TOKEN_SKEW_SECONDS
  · constructor
    · rcases hr : refresh_tokens (some prev) now resp with e | td <;>
        simp [ensure_tokens_ready, h, hr]
    · intro _ hst
      have hr : refresh_tokens (some prev) now resp =
          .error (.TokenRefreshFailed resp.status_code) := by
        simp [refresh_tokens, hst]
      simp [ensure_tokens_ready, h, hr]
  · constructor
    · simp [ensure_tokens_ready, h]
    · intro h2
      exact absurd h2 h

/-- C3 witness: an expiring stored token and a 400 refresh response. -/
theorem construction_refresh_policy_witness :
    expiringToken.expires_at ≤ 100 + TOKEN_SKEW_SECONDS ∧
    rejectResp.status_code ≠ 200 ∧
    (ensure_tokens_ready (some expiringToken) none 100 rejectResp).error =
      some (TLError.TokenRefreshFailed rejectResp.status_code) ∧
    (ensure_tokens_ready (some expiringToken) none 100 rejectResp).store =
      some expiringToken :=
  ⟨by decide, by decide,
   ((construction_refresh_policy expiringToken none 100 rejectResp).2
     (by decide) (by decide)).1,
   ((construction_refresh_policy expiringToken none 100 rejectResp).2
     (by decide) (by decide)).2.1⟩

/-- Helper: a successful code exchange dates expiry now + expires_in. -/
theorem exchange_expires_at (now : Int) (resp : OAuthResponse)
    (td : TokenData) (h : exchange_code_for_tokens now resp = .ok td) :
    td.expires_at = now + resp.expires_in := by
  unfold exchange_code_for_tokens at h
  split at h
  · simp at h
  · cases hs : resp.scope with
    | none => rw [hs] at h; simp at h
    | some sc =>
      rw [hs] at h
      simp only [Except.ok.injEq] at h
      rw [← h]

/-- Helper: a successful refresh dates expiry now + expires_in. -/
theorem refresh_expires_at (dbToken : Option TokenData) (now : Int)
    (resp : OAuthResponse) (td : TokenData)
    (h : refresh_tokens dbToken now resp = .ok td) :
    td.expires_at = now + resp.expires_in := by
  unfold refresh_tokens at h
  split at h
  · simp at h
  · cases dbToken with
    | none => simp at h
    | some prev =>
      simp only [Except.ok.injEq] at h
      rw [← h]

/-- C1 counterexample: with a stored token expiring at epoch second 161,
construction at second 100 succeeds without refreshing (161 > 100 + SKEW),
and a data call at second 110 is handed that same token even though its
remaining lifetime at the moment of return is 51 seconds, below SKEW — the
client re-evaluates expiry only at construction, not at each call. -/
theorem skew_reevaluated_per_call_cex :
    (ensure_tokens_ready (some staleSoonToken) none 100 okResp).error
      = none ∧
    (ensure_tokens_ready (some staleSoonToken) none 100 okResp).store =
      some staleSoonToken ∧
    data_call_token
      (ensure_tokens_ready (some staleSoonToken) none 100 okResp).store 110 =
      some staleSoonToken ∧
    (100 : Int) ≤ 110 ∧
    staleSoonToken.expires_at - 110 < TOKEN_SKEW_SECONDS :=
  ⟨by decide, by decide, by decide, by decide, by decide⟩

/-- C1 amended: expiry is evaluated against current time only at
construction; when construction succeeds and the upstream response used (if
any) reported expires_in above SKEW, the token it leaves in the store has
remaining lifetime above SKEW at construction time, and every later data
call reuses exactly that stored token without re-evaluating expiry. -/
theorem skew_guaranteed_only_at_construction (stored : Option TokenData)
    (code : Option String) (now : Int) (resp : OAuthResponse)
    (td : TokenData)
    (hexp : TOKEN_SKEW_SECONDS < resp.expires_in)
    (hok : (ensure_tokens_ready stored code now resp).error = none)
    (hst : (ensure_tokens_ready stored code now resp).store = some td) :
    now + TOKEN_SKEW_SECONDS < td.expires_at ∧
    ∀ t : Int,
      data_call_token (ensure_tokens_ready stored code now resp).store t =
        some td := by
  refine ⟨?_, fun t => hst⟩
  cases stored with
  | none =>
    cases code with
    | none => simp [ensure_tokens_ready] at hok
    | some c =>
      rcases he : exchange_code_for_tokens now resp with e | td2
      · simp [ensure_tokens_ready, he] at hok
      · simp [ensure_tokens_ready, he] at hst
        have hts := exchange_expires_at now resp td2 he
        rw [← hst, hts]
        omega
  | some tokens =>
    by_cases h : tokens.expires_at ≤ now + TOKEN_SKEW_SECONDS
    · rcases hr : refresh_tokens (some tokens) now resp with e | td2
      · simp [ensure_tokens_ready, h, hr] at hok
      · simp [ensure_tokens_ready, h, hr] at hst
        have hts := refresh_expires_at (some tokens) now resp td2 hr
        rw [← hst, hts]
        omega
    · simp [ensure_tokens_ready, h] at hst
      rw [← hst]
      omega

/-- C1 amended witness: a far-from-expiry stored token at construction time
zero keeps over SKEW of lifetime, and a data call at second 500 is handed
exactly the stored token. -/
theorem skew_guaranteed_only_at_construction_witness :
    TOKEN_SKEW_SECONDS < okResp.expires_in ∧
    (ensure_tokens_ready (some freshToken) none 0 okResp).error = none ∧
    (ensure_tokens_ready (some freshToken) none 0 okResp).store =
      some freshToken ∧
    0 + TOKEN_SKEW_SECONDS < freshToken.expires_at ∧
    data_call_token
      (ensure_tokens_ready (some freshToken) none 0 okResp).store 500 =
      some freshToken :=
  ⟨by decide, by decide, by decide,
   (skew_guaranteed_only_at_construction (some freshToken) none 0 okResp
     freshToken (by decide) (by decide) (by decide)).1,
   (skew_guaranteed_only_at_construction (some freshToken) none 0 okResp
     freshToken (by decide) (by decide) (by decide)).2 500⟩

/-- Helper: the upsert UPDATE branch never changes a row's provider. -/
theorem updateTokenRow_provider (inst : String) (td : TokenData) (now : Int)
    (r : TokenRow) : (updateTokenRow inst td now r).provider = r.provider := by
  unfold updateTokenRow
  split <;> rfl

/-- Helper: the upsert UPDATE branch never changes a row's institution. -/
theorem updateTokenRow_institution (inst : String) (td : TokenData)
    (now : Int) (r : TokenRow) :
    (updateTokenRow inst td now r).institution = r.institution := by
  unfold updateTokenRow
  split <;> rfl

/-- Helper: on the UPDATE branch (some row carries the key), get_token finds
the updated row and reads back exactly the saved TokenData. -/
theorem db_get_token_map_update (inst : String) (td : TokenData) (now : Int) :
    ∀ store : List TokenRow, (∀ r ∈ store, r.provider = "truelayer") →
      store.any (tokenKeyMatches inst) = true →
      db_get_token (store.map (updateTokenRow inst td now)) inst = some td := by
  intro store
  induction store with
  | nil => intro _ h; simp at h
  | cons r rest ih =>
    intro hp hany
    by_cases hm : tokenKeyMatches inst r = true
    · have hmm : r.provider = "truelayer" ∧ r.institution = inst := by
        simpa [tokenKeyMatches] using hm
      simp [db_get_token, List.find?_cons, updateTokenRow, hm, hmm.2]
    · have hpr : r.provider = "truelayer" := hp r (List.mem_cons_self r rest)
      have hmf : tokenKeyMatches inst r = false := by
        cases hb : tokenKeyMatches inst r
        · rfl
        · exact absurd hb hm
      have hin : (r.institution == inst) = false := by
        cases hb : (r.institution == inst)
        · rfl
        · exfalso
          apply hm
          simp [tokenKeyMatches, hpr, hb]
      have hrest : rest.any (tokenKeyMatches inst) = true := by
        rw [List.any_cons, hmf] at hany
        simpa using hany
      have ihr := ih (fun x hx => hp x (List.mem_cons_of_mem r hx)) hrest
      simp only [db_get_token] at ihr
      simpa [db_get_token, List.find?_cons, updateTokenRow, hmf, hin]
        using ihr

/-- Helper: on the INSERT branch (no row carries the key), get_token falls
through the old rows and reads the fresh row back as the saved TokenData. -/
theorem db_get_token_append_fresh (inst : String) (td : TokenData) (now : Int)
    (store : List TokenRow) (hp : ∀ r ∈ store, r.provider = "truelayer")
    (hany : store.any (tokenKeyMatches inst) = false) :
    db_get_token (store ++ [freshTokenRow inst td now]) inst = some td := by
  have hnone : store.find? (fun r => r.institution == inst) = none := by
    rw [List.find?_eq_none]
    intro r hr hcon
    have hfalse := List.any_eq_false.mp hany r hr
    exact hfalse (by simp [tokenKeyMatches, hp r hr, hcon])
  simp [db_get_token, List.find?_append, hnone, freshTokenRow]

/-- Helper: get_token for one institution is untouched by the UPDATE branch
of a save for a different institution. -/
theorem db_get_token_map_other (inst inst2 : String) (td : TokenData)
    (now : Int) (hne : inst ≠ inst2) :
    ∀ store : List TokenRow,
      db_get_token (store.map (updateTokenRow inst2 td now)) inst =
        db_get_token store inst := by
  intro store
  induction store with
  | nil => rfl
  | cons r rest ih =>
    by_cases hm : (r.institution == inst) = true
    · have hri : r.institution = inst := beq_iff_eq.mp hm
      have hfr : updateTokenRow inst2 td now r = r := by
        have : tokenKeyMatches inst2 r = false := by
          simp [tokenKeyMatches, hri]
          intro _
          exact hne
        simp [updateTokenRow, this]
      simp [db_get_token, List.find?_cons, hfr, hm]
    · have hmf : (r.institution == inst) = false := by
        cases hb : (r.institution == inst)
        · rfl
        · exact absurd hb hm
      have hfi : ((updateTokenRow inst2 td now r).institution == inst)
          = false := by
        rw [updateTokenRow_institution]
        exact hmf
      simp only [db_get_token] at ih
      simpa [db_get_token, List.find?_cons, hfi, hmf] using ih

/-- Helper: get_token for one institution is untouched by the INSERT branch
of a save for a different institution. -/
theorem db_get_token_append_other (inst inst2 : String) (td : TokenData)
    (now : Int) (store : List TokenRow) (hne : inst ≠ inst2) :
    db_get_token (store ++ [freshTokenRow inst2 td now]) inst =
      db_get_token store inst := by
  have hfi : ((freshTokenRow inst2 td now).institution == inst) = false := by
    simp [freshTokenRow]
    exact fun h => absurd h.symm hne
  simp [db_get_token, List.find?_append, hfi]

/-- Helper: saving for an institution makes get_token for that institution
return exactly the saved TokenData, on any store whose rows all carry the
fixed provider. -/
theorem db_get_token_save_same (store : List TokenRow) (inst : String)
    (td : TokenData) (now : Int)
    (hp : ∀ r ∈ store, r.provider = "truelayer") :
    db_get_token (save_token store inst td now) inst = some td := by
  unfold save_token
  split
  case isTrue hany => exact db_get_token_map_update inst td now store hp hany
  case isFalse hany =>
    exact db_get_token_append_fresh inst td now store hp
      (Bool.eq_false_iff.mpr hany)

/-- Helper: saving for one institution leaves get_token for any other
institution unchanged. -/
theorem db_get_token_save_other (store : List TokenRow) (inst inst2 : String)
    (td : TokenData) (now : Int) (hne : inst ≠ inst2) :
    db_get_token (save_token store inst2 td now) inst =
      db_get_token store inst := by
  unfold save_token
  split
  · exact db_get_token_map_other inst inst2 td now hne store
  · exact db_get_token_append_other inst inst2 td now store hne

/-- Helper: save_token preserves the provider/distinct-institution
invariant. -/
theorem save_token_good (store : List TokenRow) (inst : String)
    (td : TokenData) (now : Int) (h : goodStore store) :
    goodStore (save_token store inst td now) := by
  obtain ⟨hp, hu⟩ := h
  unfold save_token
  split
  case isTrue hany =>
    constructor
    · intro r2 hr2
      rw [List.mem_map] at hr2
      obtain ⟨r, hr, rfl⟩ := hr2
      rw [updateTokenRow_provider]
      exact hp r hr
    · rw [List.pairwise_map]
      exact hu.imp (fun {a b} hab => by
        rw [updateTokenRow_institution, updateTokenRow_institution]
        exact hab)
  case isFalse hany =>
    have hnm : ∀ r ∈ store, r.institution ≠ inst := by
      intro r hr hcon
      have hfalse := List.any_eq_false.mp (Bool.eq_false_iff.mpr hany) r hr
      exact hfalse (by simp [tokenKeyMatches, hp r hr, hcon])
    constructor
    · intro r hr
      rw [List.mem_append] at hr
      rcases hr with hr | hr
      · exact hp r hr
      · rw [List.mem_singleton] at hr
        rw [hr]
        rfl
    · rw [List.pairwise_append]
      refine ⟨hu, List.pairwise_singleton _ _, ?_⟩
      intro a ha b hb
      rw [List.mem_singleton] at hb
      rw [hb]
      exact hnm a ha

/-- Helper: running any save sequence preserves the store invariant. -/
theorem run_saves_good : ∀ (calls : List SaveCall) (store : List TokenRow),
    goodStore store → goodStore (run_saves store calls) := by
  intro calls
  induction calls with
  | nil => intro store h; exact h
  | cons c rest ih =>
    intro store h
    exact ih _ (save_token_good store c.inst c.td c.time h)

/-- Helper: after a save sequence, get_token answers the most recent save for
the institution, falling back to the starting store when there is none. -/
theorem run_saves_get (inst : String) : ∀ (calls : List SaveCall)
    (store : List TokenRow), goodStore store →
    db_get_token (run_saves store calls) inst =
      (match lastSaveFor inst calls with
       | some td => some td
       | none => db_get_token store inst) := by
  intro calls
  induction calls with
  | nil => intro store _; rfl
  | cons c rest ih =>
    intro store hgood
    have hgood2 := save_token_good store c.inst c.td c.time hgood
    have h2 := ih (save_token store c.inst c.td c.time) hgood2
    simp only [run_saves, lastSaveFor]
    rw [h2]
    cases hl : lastSaveFor inst rest with
    | some td => rfl
    | none =>
      simp only
      by_cases hc : (c.inst == inst) = true
      · have hce : c.inst = inst := beq_iff_eq.mp hc
        rw [hc]
        simp only [if_pos rfl]
        rw [← hce]
        exact db_get_token_save_same store c.inst c.td c.time hgood.1
      · have hcf : (c.inst == inst) = false := by
          cases hb : (c.inst == inst)
          · rfl
          · exact absurd hb hc
        have hne : inst ≠ c.inst := by
          intro hcon
          rw [hcon] at hcf
          simp at hcf
        simp only [hcf, Bool.false_eq_true, if_false]
        exact db_get_token_save_other store inst c.inst c.td c.time hne

/-- C8: starting from an empty token table, any sequence of save_token calls
leaves at most one row per (provider, institution) key, and get_token for an
institution returns exactly the TokenData of the most recent save for it —
a later save fully replaces every field of an earlier one. -/
theorem token_store_upsert_last_write (calls : List SaveCall)
    (inst : String) :
    atMostOnePerKey (run_saves [] calls) ∧
    db_get_token (run_saves [] calls) inst = lastSaveFor inst calls := by
  have hgood : goodStore ([] : List TokenRow) :=
    ⟨fun r hr => absurd hr (List.not_mem_nil r), List.Pairwise.nil⟩
  constructor
  · have hg := run_saves_good calls [] hgood
    exact hg.2.imp (fun {a b} h hk => h (congrArg Prod.snd hk))
  · have hget := run_saves_get inst calls [] hgood
    rw [hget]
    cases lastSaveFor inst calls <;> rfl

end Hornbill
